import Mathlib

/-!
Shallow embedding of the Go repository
`sohamkamani/go-dependency-injection-example`.

The repository has a `database` package declaring a `Store` interface
(`Get(ID int) (int, error)`) with a production implementation `store`
(holding a `*sql.DB`) and a testify-based `MockStore`, and a `service`
package whose `Service` holds a `Store` and exposes `GetNumber`, plus a
closure-based variant `NewGetNumber`.

Modelling choices:
* a Go `error` value is `Option GoError` (`none` = `nil`); `errors.New`
  and `fmt.Errorf` produce a `GoError` carrying the message string;
* Go `int` is `Int`: the code performs no arithmetic on the values,
  only comparison against the literal `10`, so overflow cannot arise;
* an interface value is modelled by its method table, here a single
  `Get` function.
-/

/-- A Go `error` value, as produced by `errors.New` / `fmt.Errorf`:
its `Error()` method returns `message`. -/
structure GoError where
  message : String
deriving DecidableEq

namespace database

/-- The `database.Store` interface: `Get(ID int) (int, error)`. -/
structure Store where
  Get : Int → Int × Option GoError

end database

/-- Stand-in for Go's `*sql.DB` handle.  Its internals are irrelevant
here: the production store's `Get` never consults it. -/
structure SqlDB where
  connString : String

namespace database

/-- The unexported production struct:
`type store struct { db *sql.DB }`. -/
structure store where
  db : SqlDB

/-- `func (d *store) Get(ID int) (int, error)`: the body performs no
database operation (the comment in the source says the real operation
is elided) and returns `0, nil`. -/
def store.Get (_d : store) (_ID : Int) : Int × Option GoError :=
  (0, none)

/-- `func NewStore(db *sql.DB) Store { return &store{db} }` -/
def NewStore (db : SqlDB) : Store :=
  { Get := fun ID => store.Get ⟨db⟩ ID }

end database

namespace service

/-- `type Service struct { Store database.Store }` -/
structure Service where
  Store : database.Store

/-- `func (s *Service) GetNumber(ID int) error`:
```
result, err := s.Store.Get(ID)
if err != nil { return err }
if result > 10 { return fmt.Errorf("result too high: %d", result) }
return nil
```
`fmt.Errorf`'s `%d` renders the signed decimal representation of
`result`, which `toString : Int → String` reproduces. -/
def Service.GetNumber (s : Service) (ID : Int) : Option GoError :=
  match s.Store.Get ID with
  | (_result, some err) => some err
  | (result, none) =>
    if result > 10 then
      some ⟨"result too high: " ++ toString result⟩
    else
      none

/-- `func NewGetNumber(store database.Store) func(int) error`: the
closure-based construction form, transliterated from its own body. -/
def NewGetNumber (store : database.Store) : Int → Option GoError :=
  fun ID =>
    match store.Get ID with
    | (_result, some err) => some err
    | (result, none) =>
      if result > 10 then
        some ⟨"result too high: " ++ toString result⟩
      else
        none

/-- The body of `GetNumber` with the delegated lookup made explicit as
an effect in an arbitrary monad.  The Go body has exactly one syntactic
call site `s.Store.Get(ID)`, which becomes the single occurrence of
`get ID` below; everything else is pure. -/
def GetNumberInM {m : Type → Type} [Monad m]
    (get : Int → m (Int × Option GoError)) (ID : Int) :
    m (Option GoError) := do
  let r ← get ID
  match r with
  | (_result, some err) => pure (some err)
  | (result, none) =>
    if result > 10 then
      pure (some ⟨"result too high: " ++ toString result⟩)
    else
      pure none

/-- Instrumentation of a store's `Get`: each call appends the argument
it was passed to a call log carried in state. -/
def tracedGet (st : database.Store) (ID : Int) :
    StateM (List Int) (Int × Option GoError) :=
  fun calls => (st.Get ID, calls ++ [ID])

/-- `GetNumber` with the receiver threaded explicitly through every
statement of the Go body.  The body contains no assignment to `s` or to
`s.Store`, so every exit path hands back the receiver it was given. -/
def Service.GetNumberSt (s : Service) (ID : Int) :
    Option GoError × Service :=
  match s.Store.Get ID with
  | (_result, some err) => (some err, s)
  | (result, none) =>
    if result > 10 then
      (some ⟨"result too high: " ++ toString result⟩, s)
    else
      (none, s)

/-- Outcome of invoking `GetNumber` under Go runtime semantics: either
a runtime panic or a normal return of an error value. -/
inductive Outcome where
  | panics
  | returns (err : Option GoError)
deriving DecidableEq

/-- `GetNumber` on a `Service` whose `Store` field holds a
possibly-nil interface value (`none` = Go's `nil`).  Go's runtime
panics on a method call through a nil interface value (`panic: runtime
error: invalid memory address or nil pointer dereference`); with a
non-nil store the call proceeds as `GetNumber`. -/
def GetNumberRuntime (st : Option database.Store) (ID : Int) : Outcome :=
  match st with
  | none => Outcome.panics
  | some s => Outcome.returns (Service.GetNumber ⟨s⟩ ID)

end service

open database service

/-- Claim C1: for every identifier `ID` such that the Store's `Get ID`
returns a value `v` with no error and `v ≤ 10`, `GetNumber ID` returns
no error (`nil`). -/
theorem getNumber_ok_of_le (s : Service) (ID v : Int)
    (h : s.Store.Get ID = (v, none)) (hv : v ≤ 10) :
    s.GetNumber ID = none := by
  unfold Service.GetNumber
  rw [h]
  simp only
  rw [if_neg (by omega)]

/-- Witness for C1, Scenario A of the spec: a store returning `(7, nil)`
makes `GetNumber 2` return no error. -/
theorem getNumber_ok_of_le_w :
    Service.GetNumber ⟨⟨fun _ => (7, none)⟩⟩ 2 = none :=
  getNumber_ok_of_le ⟨⟨fun _ => (7, none)⟩⟩ 2 7 rfl (by decide)

/-- Claim C2: for every identifier `ID` such that the Store's `Get ID`
returns a value `v` with no error and `v > 10`, `GetNumber ID` fails
with an error whose message is exactly `"result too high: <v>"`, with
`<v>` the decimal representation of the fetched value. -/
theorem getNumber_too_high (s : Service) (ID v : Int)
    (h : s.Store.Get ID = (v, none)) (hv : v > 10) :
    s.GetNumber ID = some ⟨"result too high: " ++ toString v⟩ := by
  unfold Service.GetNumber
  rw [h]
  simp only
  rw [if_pos hv]

/-- Witness for C2, Scenario B of the spec: a store returning
`(24, nil)` makes `GetNumber 2` fail with message
`"result too high: 24"`. -/
theorem getNumber_too_high_w :
    Service.GetNumber ⟨⟨fun _ => (24, none)⟩⟩ 2 =
      some ⟨"result too high: 24"⟩ :=
  (getNumber_too_high ⟨⟨fun _ => (24, none)⟩⟩ 2 24 rfl (by decide)).trans
    (by decide)

/-- Claim C3: for every identifier `ID` such that the Store's `Get ID`
returns a non-nil error `err` — with any value, including values greater
than 10 — `GetNumber ID` fails and the returned error is exactly `err`,
unmodified: no wrapping, no mutation, no retry, and no validation error
in its place. -/
theorem getNumber_propagates_err (s : Service) (ID v : Int) (err : GoError)
    (h : s.Store.Get ID = (v, some err)) :
    s.GetNumber ID = some err := by
  unfold Service.GetNumber
  rw [h]

/-- Witness for C3, Scenario C of the spec: a store returning
`(0, "failed")` makes `GetNumber 2` fail with exactly that error; also
exercised with a value above the threshold, where the lookup error still
wins. -/
theorem getNumber_propagates_err_w :
    Service.GetNumber ⟨⟨fun _ => (0, some ⟨"failed"⟩)⟩⟩ 2 =
        some ⟨"failed"⟩ ∧
      Service.GetNumber ⟨⟨fun _ => (24, some ⟨"failed"⟩)⟩⟩ 2 =
        some ⟨"failed"⟩ :=
  ⟨getNumber_propagates_err ⟨⟨fun _ => (0, some ⟨"failed"⟩)⟩⟩ 2 0
      ⟨"failed"⟩ rfl,
    getNumber_propagates_err ⟨⟨fun _ => (24, some ⟨"failed"⟩)⟩⟩ 2 24
      ⟨"failed"⟩ rfl⟩

/-- Claim C4: the validation threshold is strict: when the Store returns
`(10, nil)` for an identifier, `GetNumber` succeeds, and when the Store
returns `(11, nil)`, `GetNumber` fails. -/
theorem getNumber_boundary (s : Service) (ID : Int) :
    (s.Store.Get ID = (10, none) → s.GetNumber ID = none) ∧
      (s.Store.Get ID = (11, none) → s.GetNumber ID ≠ none) := by
  constructor
  · intro h
    unfold Service.GetNumber
    rw [h]
    simp only
    rw [if_neg (by omega)]
  · intro h
    unfold Service.GetNumber
    rw [h]
    simp only
    rw [if_pos (by omega)]
    simp

/-- Witness for C4: concrete stores pinned at the boundary values 10
and 11. -/
theorem getNumber_boundary_w :
    Service.GetNumber ⟨⟨fun _ => (10, none)⟩⟩ 2 = none ∧
      Service.GetNumber ⟨⟨fun _ => (11, none)⟩⟩ 2 ≠ none :=
  ⟨(getNumber_boundary ⟨⟨fun _ => (10, none)⟩⟩ 2).1 rfl,
    (getNumber_boundary ⟨⟨fun _ => (11, none)⟩⟩ 2).2 rfl⟩

/-- Claim C5: for every Store capability and every identifier, the
struct-based form `Service{store}.GetNumber(ID)` and the closure-based
form `NewGetNumber(store)(ID)` return identical results. -/
theorem newGetNumber_eq_getNumber (store : database.Store) (ID : Int) :
    NewGetNumber store ID = Service.GetNumber ⟨store⟩ ID :=
  rfl

/-- Claim C6: `GetNumber` is a pure, deterministic decision function of
the tuple the Store returns: any two invocations, on the same or
different `Service` values and identifiers, for which the Store's `Get`
yields the same `(value, error)` pair produce the same result. -/
theorem getNumber_deterministic (s₁ s₂ : Service) (id₁ id₂ : Int)
    (h : s₁.Store.Get id₁ = s₂.Store.Get id₂) :
    s₁.GetNumber id₁ = s₂.GetNumber id₂ := by
  unfold Service.GetNumber
  rw [h]

/-- Witness for C6: two different services and identifiers whose lookups
agree produce the same result. -/
theorem getNumber_deterministic_w :
    Service.GetNumber ⟨⟨fun _ => (7, none)⟩⟩ 1 =
      Service.GetNumber ⟨⟨fun i => (i + 4, none)⟩⟩ 3 :=
  getNumber_deterministic ⟨⟨fun _ => (7, none)⟩⟩
    ⟨⟨fun i => (i + 4, none)⟩⟩ 1 3 (by decide)

/-- Claim C7: every invocation of `GetNumber ID` performs exactly one
call to the Store's `Get`, passing exactly the identifier `ID` it was
given — the call log after a run from an empty log is `[ID]`, whether
the lookup succeeds or fails — and the value returned agrees with
`GetNumber`. -/
theorem getNumber_calls_get_once (st : database.Store) (ID : Int) :
    (GetNumberInM (tracedGet st) ID).run [] =
      (Service.GetNumber ⟨st⟩ ID, [ID]) := by
  unfold GetNumberInM tracedGet Service.GetNumber
  rcases hg : st.Get ID with ⟨v, e⟩
  cases e <;>
    simp [StateT.run, bind, StateT.bind, pure, StateT.pure, hg]
  split <;> rfl

/-- Claim C8: `GetNumber` never modifies the `Service`'s state: with the
receiver threaded explicitly, every call hands back the receiver it was
given — the `Store` reference set at construction included — while
returning the same result as `GetNumber`. -/
theorem getNumber_frame (s : Service) (ID : Int) :
    (s.GetNumberSt ID).2 = s ∧ (s.GetNumberSt ID).1 = s.GetNumber ID := by
  unfold Service.GetNumberSt Service.GetNumber
  rcases hg : s.Store.Get ID with ⟨v, e⟩
  cases e
  · constructor <;> (simp only; split <;> rfl)
  · exact ⟨rfl, rfl⟩

/-- Claim C9: a `Service` may be built with an absent (`nil`) Store —
construction does not validate the reference — and calling `GetNumber`
on such a `Service` panics at run time in the delegation to
`Store.Get`, never silently returning a result. -/
theorem getNumber_nil_store_panics (ID : Int) :
    GetNumberRuntime none ID = Outcome.panics ∧
      ∀ e : Option GoError, GetNumberRuntime none ID ≠ Outcome.returns e :=
  ⟨rfl, fun _ h => Outcome.noConfusion h⟩

/-- Claim C10: the production store returned by `NewStore` has a `Get`
that returns `(0, nil)` for every identifier — it never consults the
database — so a `Service` composed with it succeeds on every
identifier. -/
theorem newStore_get_zero (db : SqlDB) (ID : Int) :
    (NewStore db).Get ID = (0, none) ∧
      Service.GetNumber ⟨NewStore db⟩ ID = none :=
  ⟨rfl, rfl⟩
